import Mathlib

/-!
Verification of the MySQL-to-PostgreSQL table-copy tool
(`copy-table-mysql-to-postgres.js`).

The development shallowly embeds the pure computational content of the
source file:

* `convertDataType` — the MySQL → PostgreSQL type mapper (source lines 80-111);
* `convertDefaultValue` — default-value conversion (lines 114-141);
* `createPostgreSQLTable` / `createTableSQL` — DDL generation (lines 144-191);
* `copyTableDataStream` — the streaming batch-transfer loop (lines 194-334),
  modelled as a fuel-indexed state machine; database insert outcomes are
  supplied by an oracle `Nat → Bool` indexed by the global insert-attempt
  counter, and the number of rows the source returns for a page fetch is
  `min limit (sourceRows - offset)`, exactly the semantics of
  `SELECT * ... LIMIT limit OFFSET offset`;
* `verifyData` — post-copy count verification (lines 337-367), with the
  issued queries reified so read-onlyness is checkable;
* `computeEta` / `computeSpeed` — the progress/ETA arithmetic (lines 260-270),
  with JavaScript division-by-zero semantics made explicit.
-/

namespace DbCopy

/-- Prefix match on character lists: `charsMatchAt pat l` is true when `pat`
occurs at the very start of `l`. -/
def charsMatchAt : List Char → List Char → Bool
  | [], _ => true
  | _ :: _, [] => false
  | p :: ps, c :: cs => p == c && charsMatchAt ps cs

/-- Contiguous-substring test on character lists, scanning left to right. -/
def charsContain (pat : List Char) : List Char → Bool
  | [] => pat.isEmpty
  | c :: cs => charsMatchAt pat (c :: cs) || charsContain pat cs

/-- JavaScript `String.prototype.includes`: `pat` occurs as a contiguous
substring of `s`. -/
def jsIncludes (s pat : String) : Bool :=
  charsContain pat.toList s.toList

/-- JavaScript `String.prototype.toLowerCase`, character by character. -/
def jsToLower (s : String) : String :=
  String.mk (s.toList.map Char.toLower)

/-- Maximal run of ASCII digits at the start of a character list, together
with the remainder. -/
def leadingDigits : List Char → List Char × List Char
  | [] => ([], [])
  | c :: cs =>
    if c.isDigit then
      let r := leadingDigits cs
      (c :: r.1, r.2)
    else ([], c :: cs)

/-- Leftmost match of the regular expression `keyword(\d+)\)` — i.e. the
literal `keyword` (which itself ends in an opening parenthesis) followed by
one or more digits and a closing parenthesis — returning the captured digit
group.  Mirrors JavaScript `type.match(/varchar\((\d+)\)/)` restart
semantics: on a failed match attempt the scan resumes one character later. -/
def matchParenArg (keyword : List Char) : List Char → Option (List Char)
  | [] => none
  | c :: cs =>
    if charsMatchAt keyword (c :: cs) then
      let after := (c :: cs).drop keyword.length
      let r := leadingDigits after
      match r.1, r.2 with
      | d :: ds, ')' :: _ => some (d :: ds)
      | _, _ => matchParenArg keyword cs
    else matchParenArg keyword cs

/-- Leftmost match of `decimal\((\d+),(\d+)\)`, returning both captured digit
groups (precision, scale). -/
def matchDecimalArgs : List Char → Option (List Char × List Char)
  | [] => none
  | c :: cs =>
    if charsMatchAt "decimal(".toList (c :: cs) then
      let after := (c :: cs).drop 8
      let r1 := leadingDigits after
      match r1.1, r1.2 with
      | d :: ds, ',' :: rest =>
        let r2 := leadingDigits rest
        match r2.1, r2.2 with
        | e :: es, ')' :: _ => some (d :: ds, e :: es)
        | _, _ => matchDecimalArgs cs
      | _, _ => matchDecimalArgs cs
    else matchDecimalArgs cs

/-- The substring-test chain of `convertDataType` (source lines 84-110),
applied to the already-lowercased type string `type`. -/
def convertDataTypeAux (type : String) : String :=
  if jsIncludes type "int(" then "INTEGER"
  else if jsIncludes type "bigint" then "BIGINT"
  else if jsIncludes type "smallint" then "SMALLINT"
  else if jsIncludes type "tinyint(1)" then "BOOLEAN"
  else if jsIncludes type "tinyint" then "INTEGER"
  else if jsIncludes type "varchar" then
    match matchParenArg "varchar(".toList type.toList with
    | some ds => "VARCHAR(" ++ String.mk ds ++ ")"
    | none => "VARCHAR(255)"
  else if jsIncludes type "text" then "TEXT"
  else if jsIncludes type "longtext" then "TEXT"
  else if jsIncludes type "mediumtext" then "TEXT"
  else if jsIncludes type "decimal" then
    match matchDecimalArgs type.toList with
    | some ds => "DECIMAL(" ++ String.mk ds.1 ++ "," ++ String.mk ds.2 ++ ")"
    | none => "DECIMAL"
  else if jsIncludes type "float" then "REAL"
  else if jsIncludes type "double" then "DOUBLE PRECISION"
  else if jsIncludes type "datetime" then "TIMESTAMP"
  else if jsIncludes type "timestamp" then "TIMESTAMP"
  else if jsIncludes type "date" then "DATE"
  else if jsIncludes type "time" then "TIME"
  else if jsIncludes type "json" then "JSON"
  else if jsIncludes type "enum" then "VARCHAR(50)"
  else "TEXT"

/-- Embedding of `convertDataType` (source lines 80-111): lowercase the
source type (`const type = mysqlType.toLowerCase()`), then run the ordered
chain of substring tests, with regex extraction of `varchar`/`decimal`
arguments and a `TEXT` fallback. -/
def convertDataType (mysqlType : String) : String :=
  convertDataTypeAux (jsToLower mysqlType)

/-- The single-quote character (ASCII 39), used by the source to wrap string
default values. -/
def sq : String := String.singleton (Char.ofNat 39)

/-- Embedding of `convertDefaultValue` (source lines 114-141).  The source's
`defaultValue` is either SQL `NULL` (here `none`) or the string the MySQL
driver reports; `dataType` is accepted and ignored, as in the source. -/
def convertDefaultValue (defaultValue : Option String) (dataType : String) :
    Option String :=
  match defaultValue with
  | none => none
  | some v =>
    if v = "NULL" then none
    else
      let defaultStr := jsToLower v
      if jsIncludes defaultStr "current_timestamp" || jsIncludes defaultStr "now()" then
        some "CURRENT_TIMESTAMP"
      else if defaultStr = "0" then some "0"
      else if defaultStr = "1" then some "1"
      else some (sq ++ v ++ sq)

/-- A row of MySQL `DESCRIBE tableName` output, as consumed by the source
(fields `Field`, `Type`, `Null`, `Key`, `Default`).  The source's `Type`
field is named `colType` here because `Type` is reserved in Lean. -/
structure MySQLColumn where
  Field : String
  colType : String
  Null : String
  Key : String
  Default : Option String
deriving DecidableEq

/-- The `NOT NULL` fragment of a column definition (source line 158):
added when `col.Null === 'NO' && col.Key !== 'PRI'`. -/
def notNullPart (col : MySQLColumn) : String :=
  if col.Null == "NO" && col.Key != "PRI" then " NOT NULL" else ""

/-- The `DEFAULT` fragment of a column definition (source lines 163-166). -/
def defaultPart (col : MySQLColumn) : String :=
  match convertDefaultValue col.Default col.colType with
  | some d => " DEFAULT " ++ d
  | none => ""

/-- One column definition of the generated CREATE TABLE
(source lines 154-169). -/
def columnDefinition (col : MySQLColumn) : String :=
  "    " ++ col.Field ++ " " ++ convertDataType col.colType ++
    notNullPart col ++ defaultPart col

/-- `columns.find(col => col.Key === 'PRI')` (source line 174): the first
column flagged as primary key, if any. -/
def primaryKey (columns : List MySQLColumn) : Option MySQLColumn :=
  columns.find? (fun col => col.Key == "PRI")

/-- The PRIMARY KEY fragment appended to the CREATE TABLE statement
(source lines 174-177). -/
def primaryKeyPart (columns : List MySQLColumn) : String :=
  match primaryKey columns with
  | some pk => ",\n    PRIMARY KEY (" ++ pk.Field ++ ")"
  | none => ""

/-- The full generated CREATE TABLE statement (source lines 152-179). -/
def createTableSQL (tableName : String) (columns : List MySQLColumn) : String :=
  "CREATE TABLE " ++ tableName ++ " (\n" ++
    String.intercalate ",\n" (columns.map columnDefinition) ++
    primaryKeyPart columns ++ "\n)"

/-- `createPostgreSQLTable` (source lines 144-191) as the ordered list of SQL
statements it executes against the target: an unconditional
`DROP TABLE IF EXISTS` followed by the CREATE TABLE statement. -/
def createPostgreSQLTable (tableName : String) (columns : List MySQLColumn) :
    List String :=
  ["DROP TABLE IF EXISTS " ++ tableName, createTableSQL tableName columns]

/-- The list of field names the generated PRIMARY KEY clause actually names:
the first flagged column or nothing.  Derived from `primaryKey`
(source lines 174-177). -/
def pkFieldsNamedByCode (columns : List MySQLColumn) : List String :=
  match primaryKey columns with
  | some pk => [pk.Field]
  | none => []

/-- Modelled from the spec's words (for comparison with `pkFieldsNamedByCode`):
"exactly the columns flagged as primary key, in their original order". -/
def specFlaggedPrimaryKeys (columns : List MySQLColumn) : List String :=
  (columns.filter (fun col => col.Key == "PRI")).map MySQLColumn.Field

/-! ## The streaming batch-transfer engine -/

/-- The tunable limits of the transfer loop.  The source fixes them in the
module-level `CONFIG` object (lines 4-10); the spec treats them as the
engine's configuration input. -/
structure Config where
  batchSize : Nat
  streamLimit : Nat
  maxRetries : Nat
deriving DecidableEq

/-- The source's `CONFIG` constants (lines 4-10). -/
def CONFIG : Config := { batchSize := 5000, streamLimit := 10000, maxRetries := 3 }

/-- The mutable state of one `copyTableDataStream` run, extended with audit
trails (delays slept, sizes of attempted/successful batches, page sizes)
so the claims about them are statable. -/
structure TransferState where
  offset : Nat
  totalInserted : Nat
  batchCount : Nat
  attemptIdx : Nat
  batchesFailed : Nat
  delays : List Nat
  successfulBatchSizes : List Nat
  batchSizes : List Nat
  pageSizes : List Nat
deriving DecidableEq

/-- The retry loop around one batch insert (source lines 228-299), with
`fuel` maintaining `fuel + retries = maxRetries`.  `oracle i` tells whether
the `i`-th insert attempt (globally counted) succeeds.  Returns
(inserted?, next global attempt index, backoff delays slept in ms).
A failed attempt increments `retries` and, unless retries are exhausted,
sleeps `1000 * retries` ms (source line 297). -/
def retryInsertAux (oracle : Nat → Bool) (maxRetries : Nat) :
    Nat → Nat → Nat → Bool × Nat × List Nat
  | 0, attemptIdx, _ => (false, attemptIdx, [])
  | fuel + 1, attemptIdx, retries =>
    if oracle attemptIdx then
      (true, attemptIdx + 1, [])
    else
      let retries2 := retries + 1
      if maxRetries ≤ retries2 then
        (false, attemptIdx + 1, [])
      else
        let r := retryInsertAux oracle maxRetries fuel (attemptIdx + 1) retries2
        (r.1, r.2.1, 1000 * retries2 :: r.2.2)

/-- Entry to the retry loop: `retries = 0`, so the fuel is `maxRetries`. -/
def retryInsert (oracle : Nat → Bool) (maxRetries attemptIdx : Nat) :
    Bool × Nat × List Nat :=
  retryInsertAux oracle maxRetries maxRetries attemptIdx 0

/-- Processing of one batch (source lines 224-300): count the batch, run the
retry loop; on success add the batch length to `totalInserted`, otherwise
count a permanently failed batch. -/
def processBatch (oracle : Nat → Bool) (maxRetries : Nat)
    (st : TransferState) (batchLen : Nat) : TransferState :=
  let st1 := { st with
    batchCount := st.batchCount + 1
    batchSizes := st.batchSizes ++ [batchLen] }
  let r := retryInsert oracle maxRetries st1.attemptIdx
  if r.1 then
    { st1 with
      totalInserted := st1.totalInserted + batchLen
      attemptIdx := r.2.1
      delays := st1.delays ++ r.2.2
      successfulBatchSizes := st1.successfulBatchSizes ++ [batchLen] }
  else
    { st1 with
      attemptIdx := r.2.1
      delays := st1.delays ++ r.2.2
      batchesFailed := st1.batchesFailed + 1 }

/-- Sizes of the slices `rows.slice(i, i + BATCH_SIZE)` of a fetched page of
`n` rows (source lines 224-225); the fuel equals `n`, which suffices for any
positive batch size. -/
def sliceBatchesAux (batchSize : Nat) : Nat → Nat → List Nat
  | 0, _ => []
  | _, 0 => []
  | fuel + 1, n + 1 =>
    min batchSize (n + 1) :: sliceBatchesAux batchSize fuel (n + 1 - batchSize)

/-- The batch sizes a page of `n` rows is sliced into. -/
def sliceBatches (batchSize n : Nat) : List Nat :=
  sliceBatchesAux batchSize n n

/-- Processing of one fetched page of `n` rows: record the page size, then
process its batch slices in order. -/
def processPage (oracle : Nat → Bool) (cfg : Config) (n : Nat)
    (st : TransferState) : TransferState :=
  (sliceBatches cfg.batchSize n).foldl (processBatch oracle cfg.maxRetries)
    { st with pageSizes := st.pageSizes ++ [n] }

/-- The number of rows one page fetch returns: the source computes
`limit = Math.min(STREAM_LIMIT, totalRows - offset)` (line 211) and the
`SELECT ... LIMIT limit OFFSET offset` then yields
`min limit (sourceRows - offset)` rows, where `sourceRows` is the number of
rows actually in the source table. -/
def pageFetchCount (cfg : Config) (sourceRows totalRows offset : Nat) : Nat :=
  min (min cfg.streamLimit (totalRows - offset)) (sourceRows - offset)

/-- The paginated fetch loop `while (offset < totalRows)` (source lines
210-313).  An empty fetch breaks the loop (source line 221), and `offset`
advances by the fetched row count (source line 302).  Each loop iteration
advances `offset` by at least one, so `totalRows` fuel is enough. -/
def pageLoop (oracle : Nat → Bool) (cfg : Config) (sourceRows totalRows : Nat) :
    Nat → TransferState → TransferState
  | 0, st => st
  | fuel + 1, st =>
    if st.offset < totalRows then
      if pageFetchCount cfg sourceRows totalRows st.offset = 0 then st
      else
        pageLoop oracle cfg sourceRows totalRows fuel
          { processPage oracle cfg (pageFetchCount cfg sourceRows totalRows st.offset) st with
            offset :=
              (processPage oracle cfg (pageFetchCount cfg sourceRows totalRows st.offset) st).offset
                + pageFetchCount cfg sourceRows totalRows st.offset }
    else st

/-- The initial transfer state (source lines 200-202). -/
def initState : TransferState :=
  { offset := 0, totalInserted := 0, batchCount := 0, attemptIdx := 0
    batchesFailed := 0, delays := [], successfulBatchSizes := []
    batchSizes := [], pageSizes := [] }

/-- `copyTableDataStream` (source lines 194-334): run the page loop from the
initial state; the function's return value is `totalInserted`. -/
def copyTableDataStream (oracle : Nat → Bool) (cfg : Config)
    (sourceRows totalRows : Nat) : TransferState :=
  pageLoop oracle cfg sourceRows totalRows totalRows initState

/-- The final report classification (source lines 486-490): all rows copied
versus the "PARTIAL SUCCESS" branch. -/
inductive ReportClass
  | success
  | incomplete
deriving DecidableEq

/-- `copiedRows === totalRows` decides the report classification
(source line 486). -/
def classifyReport (copiedRows totalRows : Nat) : ReportClass :=
  if copiedRows = totalRows then ReportClass.success else ReportClass.incomplete

/-! ## Verifier -/

/-- The database queries `verifyData` can issue (source lines 337-367). -/
inductive DBQuery
  | mysqlCountRows (table : String)
  | pgCountRows (table : String)
  | pgSelectSample (table : String) (limit : Nat)
deriving DecidableEq

/-- Whether a query only reads: every query `verifyData` issues is a
`SELECT`. -/
def DBQuery.isRead : DBQuery → Bool
  | .mysqlCountRows _ => true
  | .pgCountRows _ => true
  | .pgSelectSample _ _ => true

/-- Result of `verifyData`: the match verdict plus the queries issued. -/
structure VerifyResult where
  matched : Bool
  queries : List DBQuery
deriving DecidableEq

/-- Embedding of `verifyData` (source lines 337-367): count rows on both
sides, compare (`mysqlCount[0].count === parseInt(postgresCount.count)`,
where `parseInt` of the target's decimal count string is the count itself),
and on a match additionally fetch a 3-row sample from the target.
`sourceCount`/`targetCount` are the counts the two databases report. -/
def verifyData (tableName : String) (sourceCount targetCount : Nat) :
    VerifyResult :=
  let matched := sourceCount == targetCount
  { matched := matched
    queries := [DBQuery.mysqlCountRows tableName, DBQuery.pgCountRows tableName] ++
      (if matched then [DBQuery.pgSelectSample tableName 3] else []) }

/-! ## Progress / ETA arithmetic -/

/-- JavaScript `Math.round` of the exact rational `num / den` with `den > 0`:
round half towards positive infinity, i.e. `⌊num / den + 1 / 2⌋`, computed
as a floor division of integers. -/
def jsRoundDiv (num den : ℤ) : ℤ := Int.fdiv (2 * num + den) (2 * den)

/-- The throughput computation (source line 265):
`Math.round(totalInserted / (elapsed / 1000))` for a positive elapsed time;
the value divided is exactly the rational `1000 * totalInserted / elapsedMs`. -/
def computeSpeed (totalInserted elapsedMs : Nat) : ℤ :=
  jsRoundDiv (1000 * totalInserted) elapsedMs

/-- The ETA value as the progress report prints it (source line 266):
either a finite number of seconds or the non-finite value (JavaScript
`Infinity` / `NaN`) that results from dividing by a zero `speed`. -/
inductive EtaResult
  | finite (seconds : ℤ)
  | nonFinite
deriving DecidableEq

/-- Embedding of the ETA computation (source lines 265-266):
`totalInserted > 0 ? Math.round((totalRows - totalInserted) / speed) : 0`.
With `elapsedMs = 0`, JavaScript yields `speed = Infinity` and hence an ETA
of 0; with a positive elapsed time and `speed = 0` the division yields
`Infinity` (or `NaN` when the numerator is also zero), a non-finite ETA. -/
def computeEta (totalRows totalInserted elapsedMs : Nat) : EtaResult :=
  if 0 < totalInserted then
    if elapsedMs = 0 then EtaResult.finite 0
    else
      let speed := computeSpeed totalInserted elapsedMs
      if speed = 0 then EtaResult.nonFinite
      else EtaResult.finite (jsRoundDiv ((totalRows : ℤ) - (totalInserted : ℤ)) speed)
  else EtaResult.finite 0

/-- The disjunction of every substring test `convertDataType` performs, in
the same order and on the same lowercased string: false exactly when the
mapper's final `TEXT` fallback is reached. -/
def matchesKnownPattern (type : String) : Bool :=
  jsIncludes type "int(" || jsIncludes type "bigint" || jsIncludes type "smallint" ||
  jsIncludes type "tinyint(1)" || jsIncludes type "tinyint" || jsIncludes type "varchar" ||
  jsIncludes type "text" || jsIncludes type "longtext" || jsIncludes type "mediumtext" ||
  jsIncludes type "decimal" || jsIncludes type "float" || jsIncludes type "double" ||
  jsIncludes type "datetime" || jsIncludes type "timestamp" || jsIncludes type "date" ||
  jsIncludes type "time" || jsIncludes type "json" || jsIncludes type "enum"

/-- A valid PostgreSQL target type as produced by the mapper: one of the
fixed type names, or a parameterized `VARCHAR(d)` / `DECIMAL(p,q)`. -/
def IsValidTargetType (s : String) : Prop :=
  s ∈ (["INTEGER", "BIGINT", "SMALLINT", "BOOLEAN", "TEXT", "REAL",
        "DOUBLE PRECISION", "TIMESTAMP", "DATE", "TIME", "JSON",
        "DECIMAL"] : List String) ∨
  (∃ d, s = "VARCHAR(" ++ d ++ ")") ∨
  (∃ p q, s = "DECIMAL(" ++ p ++ "," ++ q ++ ")")

/-- A two-column table whose columns are both flagged `PRI` (a composite
primary key, as MySQL `DESCRIBE` reports one). -/
def twoPkColumns : List MySQLColumn :=
  [{ Field := "a", colType := "int(11)", Null := "NO", Key := "PRI", Default := none },
   { Field := "b", colType := "int(11)", Null := "NO", Key := "PRI", Default := none }]

/-! ## Lemmas about the transfer loop -/

theorem sliceBatchesAux_sum_le (b : Nat) :
    ∀ fuel n, (sliceBatchesAux b fuel n).sum ≤ n := by
  intro fuel
  induction fuel with
  | zero => intro n; simp [sliceBatchesAux]
  | succ fuel ih =>
    intro n
    cases n with
    | zero => simp [sliceBatchesAux]
    | succ n =>
      simp only [sliceBatchesAux, List.sum_cons]
      have h := ih (n + 1 - b)
      have hmin : min b (n + 1) ≤ b := Nat.min_le_left _ _
      have hmin2 : min b (n + 1) ≤ n + 1 := Nat.min_le_right _ _
      omega

theorem sliceBatchesAux_sum_eq (b : Nat) (hb : 1 ≤ b) :
    ∀ fuel n, n ≤ fuel → (sliceBatchesAux b fuel n).sum = n := by
  intro fuel
  induction fuel with
  | zero =>
    intro n hn
    interval_cases n
    simp [sliceBatchesAux]
  | succ fuel ih =>
    intro n hn
    cases n with
    | zero => simp [sliceBatchesAux]
    | succ n =>
      simp only [sliceBatchesAux, List.sum_cons]
      have h := ih (n + 1 - b) (by omega)
      rcases Nat.le_total b (n + 1) with hle | hle
      · rw [Nat.min_eq_left hle]; omega
      · rw [Nat.min_eq_right hle]; omega

theorem sliceBatches_sum_eq (b n : Nat) (hb : 1 ≤ b) :
    (sliceBatches b n).sum = n :=
  sliceBatchesAux_sum_eq b hb n n (Nat.le_refl n)

theorem sliceBatches_sum_le (b n : Nat) : (sliceBatches b n).sum ≤ n :=
  sliceBatchesAux_sum_le b n n

theorem retryInsert_true (m a : Nat) (hm : 1 ≤ m) :
    retryInsert (fun _ => true) m a = (true, a + 1, []) := by
  cases m with
  | zero => omega
  | succ m => simp [retryInsert, retryInsertAux]

theorem retryInsertAux_false_fst (m : Nat) :
    ∀ fuel a r, (retryInsertAux (fun _ => false) m fuel a r).1 = false := by
  intro fuel
  induction fuel with
  | zero => intro a r; rfl
  | succ fuel ih =>
    intro a r
    simp only [retryInsertAux]
    rw [if_neg (by simp)]
    split
    · rfl
    · exact ih (a + 1) (r + 1)

theorem processBatch_offset (o : Nat → Bool) (m : Nat) (st : TransferState)
    (b : Nat) : (processBatch o m st b).offset = st.offset := by
  simp only [processBatch]
  split <;> rfl

theorem processBatch_totalInserted_le (o : Nat → Bool) (m : Nat)
    (st : TransferState) (b : Nat) :
    (processBatch o m st b).totalInserted ≤ st.totalInserted + b := by
  simp only [processBatch]
  split
  · exact Nat.le_refl _
  · exact Nat.le_add_right _ _

theorem processBatch_true (m : Nat) (hm : 1 ≤ m) (st : TransferState) (b : Nat) :
    processBatch (fun _ => true) m st b =
      { st with
        batchCount := st.batchCount + 1
        batchSizes := st.batchSizes ++ [b]
        totalInserted := st.totalInserted + b
        attemptIdx := st.attemptIdx + 1
        successfulBatchSizes := st.successfulBatchSizes ++ [b] } := by
  simp [processBatch, retryInsert_true m st.attemptIdx hm]

theorem processBatch_false (m : Nat) (st : TransferState) (b : Nat) :
    (processBatch (fun _ => false) m st b).totalInserted = st.totalInserted ∧
    (processBatch (fun _ => false) m st b).batchCount = st.batchCount + 1 ∧
    (processBatch (fun _ => false) m st b).batchesFailed = st.batchesFailed + 1 ∧
    (processBatch (fun _ => false) m st b).successfulBatchSizes
        = st.successfulBatchSizes := by
  have h := retryInsertAux_false_fst m m st.attemptIdx 0
  simp [processBatch, retryInsert, h]

theorem processBatch_sum_inv (o : Nat → Bool) (m : Nat) (st : TransferState)
    (b : Nat) (h : st.totalInserted = st.successfulBatchSizes.sum) :
    (processBatch o m st b).totalInserted
        = (processBatch o m st b).successfulBatchSizes.sum := by
  simp only [processBatch]
  split
  · simp [h]
  · simpa using h

theorem foldl_processBatch_offset (o : Nat → Bool) (m : Nat) :
    ∀ (l : List Nat) (st : TransferState),
      (l.foldl (processBatch o m) st).offset = st.offset := by
  intro l
  induction l with
  | nil => intro st; rfl
  | cons b l ih =>
    intro st
    rw [List.foldl_cons, ih, processBatch_offset]

theorem foldl_processBatch_totalInserted_le (o : Nat → Bool) (m : Nat) :
    ∀ (l : List Nat) (st : TransferState),
      (l.foldl (processBatch o m) st).totalInserted ≤ st.totalInserted + l.sum := by
  intro l
  induction l with
  | nil => intro st; simp
  | cons b l ih =>
    intro st
    rw [List.foldl_cons]
    have h1 := ih (processBatch o m st b)
    have h2 := processBatch_totalInserted_le o m st b
    simp only [List.sum_cons]
    omega

theorem foldl_processBatch_true (m : Nat) (hm : 1 ≤ m) :
    ∀ (l : List Nat) (st : TransferState),
      (l.foldl (processBatch (fun _ => true) m) st).totalInserted
          = st.totalInserted + l.sum := by
  intro l
  induction l with
  | nil => intro st; simp
  | cons b l ih =>
    intro st
    rw [List.foldl_cons, ih, processBatch_true m hm]
    simp only [List.sum_cons]
    omega

theorem foldl_processBatch_false (m : Nat) :
    ∀ (l : List Nat) (st : TransferState),
      (l.foldl (processBatch (fun _ => false) m) st).totalInserted
            = st.totalInserted ∧
      (l.foldl (processBatch (fun _ => false) m) st).batchCount
            = st.batchCount + l.length ∧
      (l.foldl (processBatch (fun _ => false) m) st).batchesFailed
            = st.batchesFailed + l.length ∧
      (l.foldl (processBatch (fun _ => false) m) st).successfulBatchSizes
            = st.successfulBatchSizes := by
  intro l
  induction l with
  | nil => intro st; simp
  | cons b l ih =>
    intro st
    rw [List.foldl_cons]
    have h1 := ih (processBatch (fun _ => false) m st b)
    have h2 := processBatch_false m st b
    refine ⟨?_, ?_, ?_, ?_⟩
    · rw [h1.1, h2.1]
    · rw [h1.2.1, h2.2.1]; simp only [List.length_cons]; omega
    · rw [h1.2.2.1, h2.2.2.1]; simp only [List.length_cons]; omega
    · rw [h1.2.2.2, h2.2.2.2]

theorem foldl_processBatch_sum_inv (o : Nat → Bool) (m : Nat) :
    ∀ (l : List Nat) (st : TransferState),
      st.totalInserted = st.successfulBatchSizes.sum →
      (l.foldl (processBatch o m) st).totalInserted
          = (l.foldl (processBatch o m) st).successfulBatchSizes.sum := by
  intro l
  induction l with
  | nil => intro st h; exact h
  | cons b l ih =>
    intro st h
    rw [List.foldl_cons]
    exact ih _ (processBatch_sum_inv o m st b h)

theorem processPage_offset (o : Nat → Bool) (cfg : Config) (n : Nat)
    (st : TransferState) : (processPage o cfg n st).offset = st.offset := by
  unfold processPage
  rw [foldl_processBatch_offset]

theorem processPage_totalInserted_le (o : Nat → Bool) (cfg : Config) (n : Nat)
    (st : TransferState) :
    (processPage o cfg n st).totalInserted ≤ st.totalInserted + n := by
  unfold processPage
  have h1 := foldl_processBatch_totalInserted_le o cfg.maxRetries
    (sliceBatches cfg.batchSize n) { st with pageSizes := st.pageSizes ++ [n] }
  have h2 := sliceBatches_sum_le cfg.batchSize n
  simp only at h1
  omega

theorem processPage_true (cfg : Config) (hb : 1 ≤ cfg.batchSize)
    (hm : 1 ≤ cfg.maxRetries) (n : Nat) (st : TransferState) :
    (processPage (fun _ => true) cfg n st).totalInserted
        = st.totalInserted + n := by
  unfold processPage
  rw [foldl_processBatch_true cfg.maxRetries hm, sliceBatches_sum_eq cfg.batchSize n hb]

theorem processPage_false (cfg : Config) (n : Nat) (st : TransferState) :
    (processPage (fun _ => false) cfg n st).totalInserted = st.totalInserted ∧
    (processPage (fun _ => false) cfg n st).batchesFailed
        = st.batchesFailed + (sliceBatches cfg.batchSize n).length ∧
    (processPage (fun _ => false) cfg n st).batchCount
        = st.batchCount + (sliceBatches cfg.batchSize n).length ∧
    (processPage (fun _ => false) cfg n st).successfulBatchSizes
        = st.successfulBatchSizes := by
  unfold processPage
  have h := foldl_processBatch_false cfg.maxRetries (sliceBatches cfg.batchSize n)
    { st with pageSizes := st.pageSizes ++ [n] }
  exact ⟨h.1, h.2.2.1, h.2.1, h.2.2.2⟩

theorem pageLoop_true (cfg : Config) (hb : 1 ≤ cfg.batchSize)
    (hs : 1 ≤ cfg.streamLimit) (hm : 1 ≤ cfg.maxRetries) (R : Nat) :
    ∀ fuel st, R - st.offset ≤ fuel → st.offset ≤ R →
      (pageLoop (fun _ => true) cfg R R fuel st).totalInserted
          = st.totalInserted + (R - st.offset) ∧
      (pageLoop (fun _ => true) cfg R R fuel st).offset = R := by
  intro fuel
  induction fuel with
  | zero =>
    intro st h1 h2
    have h3 : st.offset = R := by omega
    simp [pageLoop, h3]
  | succ fuel ih =>
    intro st h1 h2
    rw [pageLoop]
    by_cases hlt : st.offset < R
    · rw [if_pos hlt]
      have hlim1 : min cfg.streamLimit (R - st.offset) ≤ R - st.offset :=
        Nat.min_le_right _ _
      have hlim2 : 1 ≤ min cfg.streamLimit (R - st.offset) :=
        Nat.le_min.mpr ⟨hs, by omega⟩
      have hfetch : pageFetchCount cfg R R st.offset
          = min cfg.streamLimit (R - st.offset) := by
        unfold pageFetchCount
        exact Nat.min_eq_left hlim1
      rw [hfetch, if_neg (by omega)]
      set f := min cfg.streamLimit (R - st.offset) with hf
      have hoff := processPage_offset (fun _ => true) cfg f st
      have hti := processPage_true cfg hb hm f st
      have hrec := ih { processPage (fun _ => true) cfg f st with
          offset := (processPage (fun _ => true) cfg f st).offset + f }
        (by simp only [hoff]; omega) (by simp only [hoff]; omega)
      constructor
      · rw [hrec.1]
        simp only [hti, hoff]
        omega
      · exact hrec.2
    · rw [if_neg hlt]
      have h3 : st.offset = R := by omega
      constructor
      · omega
      · exact h3

theorem pageLoop_false (cfg : Config) (hs : 1 ≤ cfg.streamLimit) (R : Nat) :
    ∀ fuel st, R - st.offset ≤ fuel → st.offset ≤ R →
      (pageLoop (fun _ => false) cfg R R fuel st).totalInserted
          = st.totalInserted ∧
      (pageLoop (fun _ => false) cfg R R fuel st).offset = R ∧
      (pageLoop (fun _ => false) cfg R R fuel st).successfulBatchSizes
          = st.successfulBatchSizes ∧
      ((pageLoop (fun _ => false) cfg R R fuel st).batchesFailed
            - (pageLoop (fun _ => false) cfg R R fuel st).batchCount
          = st.batchesFailed - st.batchCount ∧
        (pageLoop (fun _ => false) cfg R R fuel st).batchCount
            - (pageLoop (fun _ => false) cfg R R fuel st).batchesFailed
          = st.batchCount - st.batchesFailed) := by
  intro fuel
  induction fuel with
  | zero =>
    intro st h1 h2
    have h3 : st.offset = R := by omega
    simp [pageLoop, h3]
  | succ fuel ih =>
    intro st h1 h2
    rw [pageLoop]
    by_cases hlt : st.offset < R
    · rw [if_pos hlt]
      have hlim1 : min cfg.streamLimit (R - st.offset) ≤ R - st.offset :=
        Nat.min_le_right _ _
      have hlim2 : 1 ≤ min cfg.streamLimit (R - st.offset) :=
        Nat.le_min.mpr ⟨hs, by omega⟩
      have hfetch : pageFetchCount cfg R R st.offset
          = min cfg.streamLimit (R - st.offset) := by
        unfold pageFetchCount
        exact Nat.min_eq_left hlim1
      rw [hfetch, if_neg (by omega)]
      set f := min cfg.streamLimit (R - st.offset) with hf
      have hoff := processPage_offset (fun _ => false) cfg f st
      have hpp := processPage_false cfg f st
      have hrec := ih { processPage (fun _ => false) cfg f st with
          offset := (processPage (fun _ => false) cfg f st).offset + f }
        (by simp only [hoff]; omega) (by simp only [hoff]; omega)
      refine ⟨?_, hrec.2.1, ?_, ?_, ?_⟩
      · rw [hrec.1]; simp only [hpp.1]
      · rw [hrec.2.2.1]; simp only [hpp.2.2.2]
      · rw [hrec.2.2.2.1]; simp only [hpp.2.1, hpp.2.2.1]; omega
      · rw [hrec.2.2.2.2]; simp only [hpp.2.1, hpp.2.2.1]; omega
    · rw [if_neg hlt]
      have h3 : st.offset = R := by omega
      exact ⟨rfl, h3, rfl, rfl, rfl⟩

theorem pageLoop_totalInserted_le (o : Nat → Bool) (cfg : Config)
    (S R : Nat) :
    ∀ fuel st, st.totalInserted ≤ st.offset → st.offset ≤ R →
      (pageLoop o cfg S R fuel st).totalInserted ≤ R := by
  intro fuel
  induction fuel with
  | zero => intro st h1 h2; rw [pageLoop]; omega
  | succ fuel ih =>
    intro st h1 h2
    rw [pageLoop]
    by_cases hlt : st.offset < R
    · rw [if_pos hlt]
      by_cases hz : pageFetchCount cfg S R st.offset = 0
      · rw [if_pos hz]; omega
      · rw [if_neg hz]
        set f := pageFetchCount cfg S R st.offset with hf
        have hfle : f ≤ R - st.offset := by
          have ha := Nat.min_le_left (min cfg.streamLimit (R - st.offset)) (S - st.offset)
          have hc := Nat.min_le_right cfg.streamLimit (R - st.offset)
          simp only [hf, pageFetchCount]
          omega
        have hoff := processPage_offset o cfg f st
        have hti := processPage_totalInserted_le o cfg f st
        exact ih { processPage o cfg f st with
            offset := (processPage o cfg f st).offset + f }
          (by simp only [hoff]; omega) (by simp only [hoff]; omega)
    · rw [if_neg hlt]; omega

theorem pageLoop_sum_inv (o : Nat → Bool) (cfg : Config) (S R : Nat) :
    ∀ fuel st, st.totalInserted = st.successfulBatchSizes.sum →
      (pageLoop o cfg S R fuel st).totalInserted
          = (pageLoop o cfg S R fuel st).successfulBatchSizes.sum := by
  intro fuel
  induction fuel with
  | zero => intro st h; exact h
  | succ fuel ih =>
    intro st h
    rw [pageLoop]
    by_cases hlt : st.offset < R
    · rw [if_pos hlt]
      by_cases hz : pageFetchCount cfg S R st.offset = 0
      · rw [if_pos hz]; exact h
      · rw [if_neg hz]
        set f := pageFetchCount cfg S R st.offset with hf
        refine ih _ ?_
        show (processPage o cfg f st).totalInserted
            = (processPage o cfg f st).successfulBatchSizes.sum
        unfold processPage
        exact foldl_processBatch_sum_inv o cfg.maxRetries _ _ (by simpa using h)
    · rw [if_neg hlt]; exact h

/-! ## Lemmas about the schema builder and type mapper -/

theorem pkFieldsNamedByCode_take_one :
    ∀ columns : List MySQLColumn,
      pkFieldsNamedByCode columns = (specFlaggedPrimaryKeys columns).take 1 := by
  intro columns
  induction columns with
  | nil => rfl
  | cons c cs ih =>
    cases h : c.Key == "PRI" with
    | true =>
      simp [pkFieldsNamedByCode, primaryKey, specFlaggedPrimaryKeys,
        List.find?_cons_of_pos, List.filter_cons_of_pos, h]
    | false =>
      simp only [pkFieldsNamedByCode, primaryKey, specFlaggedPrimaryKeys] at ih ⊢
      rw [List.find?_cons_of_neg _ (by simp [h]), List.filter_cons_of_neg (by simp [h])]
      exact ih

theorem valid_ite {c : Prop} [Decidable c] {a b : String}
    (ha : IsValidTargetType a) (hb : IsValidTargetType b) :
    IsValidTargetType (if c then a else b) := by
  split
  · exact ha
  · exact hb

theorem ite_cond_false (b : Bool) (hb : b = false) (x y : String) :
    (if b = true then x else y) = y := by
  subst hb
  simp

/-! ## Claims -/

/-- C1: evaluation of the type mapper at the scenario inputs.
`"varchar(120)"` maps to `VARCHAR(120)` and plain `"tinyint"` to `INTEGER`
as claimed, but `"tinyint(1)"` maps to `INTEGER`, not `BOOLEAN`: the string
`"tinyint(1)"` contains the substring `"int("`, so the general
`type.includes('int(')` check at source line 84 fires before the more
specific `tinyint(1)` check at line 87, whose `BOOLEAN` branch is
unreachable.  The code contradicts its own explicit `tinyint(1) → BOOLEAN`
branch and the spec's required priority order. -/
theorem C1_type_mapper_scenario :
    convertDataType "varchar(120)" = "VARCHAR(120)" ∧
    convertDataType "tinyint" = "INTEGER" ∧
    convertDataType "tinyint(1)" = "INTEGER" :=
  ⟨by decide, by decide, by decide⟩

/-- C2: with 12 source rows, batch size 5, page size 10 and no insert
failures, the transfer issues two page fetches of 10 and 2 rows, sliced
into batches of sizes 5, 5, 2, and copies all 12 rows.  In general, when
the source really holds `R` rows and no insert fails, the transfer returns
exactly `R`; and for every oracle, configuration and row counts, the rows
copied equal the sum of the successful batch sizes. -/
theorem C2_transfer_counts :
    ((copyTableDataStream (fun _ => true) ⟨5, 10, 3⟩ 12 12).totalInserted = 12 ∧
      (copyTableDataStream (fun _ => true) ⟨5, 10, 3⟩ 12 12).pageSizes = [10, 2] ∧
      (copyTableDataStream (fun _ => true) ⟨5, 10, 3⟩ 12 12).batchSizes = [5, 5, 2]) ∧
    (∀ (cfg : Config) (R : Nat), 1 ≤ cfg.batchSize → 1 ≤ cfg.streamLimit →
      1 ≤ cfg.maxRetries →
      (copyTableDataStream (fun _ => true) cfg R R).totalInserted = R) ∧
    (∀ (oracle : Nat → Bool) (cfg : Config) (S R : Nat),
      (copyTableDataStream oracle cfg S R).totalInserted
        = (copyTableDataStream oracle cfg S R).successfulBatchSizes.sum) := by
  refine ⟨⟨by decide, by decide, by decide⟩, ?_, ?_⟩
  · intro cfg R hb hs hm
    unfold copyTableDataStream
    have h := pageLoop_true cfg hb hs hm R R initState
      (by simp [initState]) (by simp [initState])
    rw [h.1]
    simp [initState]
  · intro oracle cfg S R
    exact pageLoop_sum_inv oracle cfg S R R initState (by simp [initState])

/-- Witness for C2: the general all-success clause evaluated at a concrete
configuration and row count. -/
theorem C2_transfer_counts_witness :
    (copyTableDataStream (fun _ => true) ⟨5, 10, 3⟩ 7 7).totalInserted = 7 :=
  C2_transfer_counts.2.1 ⟨5, 10, 3⟩ 7 (by decide) (by decide) (by decide)

/-- C3: if a batch insert fails on the first two attempts and succeeds on
the third with maxRetries = 3, then the batch counts as successful (its
rows are added to the running total), no permanent batch failure is
recorded, and exactly two backoff delays elapse, of `1000 * 1` ms and
`1000 * 2` ms — attempt number times the fixed 1000 ms base delay. -/
theorem C3_retry_backoff (oracle : Nat → Bool) (st : TransferState) (blen : Nat)
    (h0 : oracle st.attemptIdx = false)
    (h1 : oracle (st.attemptIdx + 1) = false)
    (h2 : oracle (st.attemptIdx + 2) = true) :
    (processBatch oracle 3 st blen).totalInserted = st.totalInserted + blen ∧
    (processBatch oracle 3 st blen).batchesFailed = st.batchesFailed ∧
    (processBatch oracle 3 st blen).delays = st.delays ++ [1000 * 1, 1000 * 2] := by
  have h2' : oracle (st.attemptIdx + 1 + 1) = true := h2
  have hr : retryInsert oracle 3 st.attemptIdx
      = (true, st.attemptIdx + 3, [1000 * 1, 1000 * 2]) := by
    unfold retryInsert
    show retryInsertAux oracle 3 (2 + 1) st.attemptIdx 0 = _
    rw [retryInsertAux]
    simp only [h0, h1, h2', Bool.false_eq_true, if_false, retryInsertAux]
    norm_num
  refine ⟨?_, ?_, ?_⟩ <;> simp [processBatch, hr]

/-- Witness for C3: a concrete oracle failing on attempts 0 and 1 and
succeeding on attempt 2, applied to the initial state and a 5-row batch. -/
theorem C3_retry_backoff_witness :
    (processBatch (fun i => decide (2 ≤ i)) 3 initState 5).totalInserted
        = initState.totalInserted + 5 ∧
    (processBatch (fun i => decide (2 ≤ i)) 3 initState 5).batchesFailed
        = initState.batchesFailed ∧
    (processBatch (fun i => decide (2 ≤ i)) 3 initState 5).delays
        = initState.delays ++ [1000 * 1, 1000 * 2] :=
  C3_retry_backoff (fun i => decide (2 ≤ i)) initState 5 (by decide) (by decide)
    (by decide)

/-- C4: when every insert attempt fails, the transfer still runs to the end
of the table (the final offset reaches `totalRows`, so every batch was
passed over rather than aborting), returns 0 copied rows (the model is a
total function — no exception escapes the loop), records every attempted
batch as permanently failed, and the final report takes the non-success
("PARTIAL SUCCESS") branch. -/
theorem C4_all_failures (cfg : Config) (R : Nat) (hb : 1 ≤ cfg.batchSize)
    (hs : 1 ≤ cfg.streamLimit) (hR : 1 ≤ R) :
    (copyTableDataStream (fun _ => false) cfg R R).totalInserted = 0 ∧
    (copyTableDataStream (fun _ => false) cfg R R).offset = R ∧
    (copyTableDataStream (fun _ => false) cfg R R).successfulBatchSizes = [] ∧
    (copyTableDataStream (fun _ => false) cfg R R).batchesFailed
        = (copyTableDataStream (fun _ => false) cfg R R).batchCount ∧
    classifyReport (copyTableDataStream (fun _ => false) cfg R R).totalInserted R
        = ReportClass.incomplete := by
  unfold copyTableDataStream
  have h := pageLoop_false cfg hs R R initState
    (by simp [initState]) (by simp [initState])
  refine ⟨?_, h.2.1, ?_, ?_, ?_⟩
  · rw [h.1]; rfl
  · rw [h.2.2.1]; rfl
  · have h4 := h.2.2.2
    rw [show initState.batchesFailed = 0 from rfl,
      show initState.batchCount = 0 from rfl] at h4
    omega
  · rw [h.1]
    unfold classifyReport
    rw [if_neg (by simp [initState]; omega)]

/-- Witness for C4: a 12-row table with batch size 5, page size 10 and an
always-failing insert oracle. -/
theorem C4_all_failures_witness :
    (copyTableDataStream (fun _ => false) ⟨5, 10, 3⟩ 12 12).totalInserted = 0 ∧
    (copyTableDataStream (fun _ => false) ⟨5, 10, 3⟩ 12 12).offset = 12 ∧
    (copyTableDataStream (fun _ => false) ⟨5, 10, 3⟩ 12 12).successfulBatchSizes
        = [] ∧
    (copyTableDataStream (fun _ => false) ⟨5, 10, 3⟩ 12 12).batchesFailed
        = (copyTableDataStream (fun _ => false) ⟨5, 10, 3⟩ 12 12).batchCount ∧
    classifyReport
        (copyTableDataStream (fun _ => false) ⟨5, 10, 3⟩ 12 12).totalInserted 12
        = ReportClass.incomplete :=
  C4_all_failures ⟨5, 10, 3⟩ 12 (by decide) (by decide) (by decide)

/-- C10: for every oracle, configuration, actual source size and claimed
total, the transfer's returned row count never exceeds `totalRows`: every
page fetch is limited to `min streamLimit (totalRows - offset)` rows, so
even a source table that gained rows mid-transfer cannot push the copied
count past `totalRows`. -/
theorem C10_rows_copied_bounded (oracle : Nat → Bool) (cfg : Config)
    (sourceRows totalRows : Nat) :
    (copyTableDataStream oracle cfg sourceRows totalRows).totalInserted
      ≤ totalRows := by
  unfold copyTableDataStream
  exact pageLoop_totalInserted_le oracle cfg sourceRows totalRows totalRows
    initState (by simp [initState]) (by simp [initState])

/-- C5 counterexample: for a table whose two columns are both flagged `PRI`,
the generated PRIMARY KEY clause names only the first flagged column — not
"exactly the columns flagged as primary key": the source uses
`columns.find(col => col.Key === 'PRI')`, which ignores every flagged column
after the first. -/
theorem C5_composite_pk_counterexample :
    pkFieldsNamedByCode twoPkColumns ≠ specFlaggedPrimaryKeys twoPkColumns ∧
    pkFieldsNamedByCode twoPkColumns = ["a"] ∧
    specFlaggedPrimaryKeys twoPkColumns = ["a", "b"] :=
  ⟨by decide, by decide, by decide⟩

/-- C5 (amended): `createPostgreSQLTable` issues the unconditional drop
first and the CREATE TABLE second; a column flagged `PRI` never receives a
`NOT NULL` fragment in its definition; and the PRIMARY KEY clause names
exactly the FIRST column flagged as primary key (further flagged columns
are ignored — composite keys are not supported). -/
theorem C5_create_table_amended (tableName : String)
    (columns : List MySQLColumn) :
    createPostgreSQLTable tableName columns
        = ["DROP TABLE IF EXISTS " ++ tableName,
           createTableSQL tableName columns] ∧
    (∀ col : MySQLColumn, col.Key = "PRI" →
      columnDefinition col
        = "    " ++ col.Field ++ " " ++ convertDataType col.colType
            ++ defaultPart col) ∧
    pkFieldsNamedByCode columns = (specFlaggedPrimaryKeys columns).take 1 := by
  refine ⟨rfl, ?_, pkFieldsNamedByCode_take_one columns⟩
  intro col hcol
  unfold columnDefinition notNullPart
  rw [hcol]
  simp

/-- Witness for C5 (amended): the primary-key column of the two-PK table
gets no NOT NULL fragment, evaluated concretely. -/
theorem C5_create_table_amended_witness :
    columnDefinition
        { Field := "a", colType := "int(11)", Null := "NO", Key := "PRI",
          Default := none }
      = "    " ++ "a" ++ " " ++ convertDataType "int(11)"
          ++ defaultPart
            { Field := "a", colType := "int(11)", Null := "NO", Key := "PRI",
              Default := none } :=
  (C5_create_table_amended "users" twoPkColumns).2.1
    { Field := "a", colType := "int(11)", Null := "NO", Key := "PRI",
      Default := none } rfl

/-- C6 counterexample: the numeric literal default `"2"` does NOT pass
through unquoted — `convertDefaultValue` wraps every literal other than
`"0"` and `"1"` in single quotes. -/
theorem C6_numeric_default_counterexample :
    convertDefaultValue (some "2") "int(11)" ≠ some "2" ∧
    convertDefaultValue (some "2") "int(11)" = some (sq ++ "2" ++ sq) :=
  ⟨by decide, by decide⟩

/-- C6 (amended): a null/`NULL` source default stays absent; a recognized
current-time function maps to `CURRENT_TIMESTAMP`; exactly the literals
`"0"` and `"1"` pass through unquoted; and every other literal — numeric or
not — is wrapped in single quotes. -/
theorem C6_default_conversion_amended :
    (∀ dataType, convertDefaultValue none dataType = none) ∧
    (∀ dataType, convertDefaultValue (some "NULL") dataType = none) ∧
    (∀ v dataType, v ≠ "NULL" →
      (jsIncludes (jsToLower v) "current_timestamp"
          || jsIncludes (jsToLower v) "now()") = true →
      convertDefaultValue (some v) dataType = some "CURRENT_TIMESTAMP") ∧
    (∀ v dataType, v ≠ "NULL" →
      (jsIncludes (jsToLower v) "current_timestamp"
          || jsIncludes (jsToLower v) "now()") = false →
      jsToLower v = "0" →
      convertDefaultValue (some v) dataType = some "0") ∧
    (∀ v dataType, v ≠ "NULL" →
      (jsIncludes (jsToLower v) "current_timestamp"
          || jsIncludes (jsToLower v) "now()") = false →
      jsToLower v = "1" →
      convertDefaultValue (some v) dataType = some "1") ∧
    (∀ v dataType, v ≠ "NULL" →
      (jsIncludes (jsToLower v) "current_timestamp"
          || jsIncludes (jsToLower v) "now()") = false →
      jsToLower v ≠ "0" → jsToLower v ≠ "1" →
      convertDefaultValue (some v) dataType = some (sq ++ v ++ sq)) := by
  refine ⟨fun _ => rfl, fun _ => rfl, ?_, ?_, ?_, ?_⟩
  · intro v dataType hnull hct
    simp [convertDefaultValue, hnull, hct]
  · intro v dataType hnull hct h0
    rw [h0] at hct
    simp [convertDefaultValue, hnull, hct, h0]
  · intro v dataType hnull hct h1
    rw [h1] at hct
    simp [convertDefaultValue, hnull, hct, h1]
  · intro v dataType hnull hct h0 h1
    simp [convertDefaultValue, hnull, hct, h0, h1]

/-- Witness for C6 (amended): the quoted-literal clause evaluated at the
default value `"abc"`. -/
theorem C6_default_conversion_amended_witness :
    convertDefaultValue (some "abc") "text" = some (sq ++ "abc" ++ sq) :=
  C6_default_conversion_amended.2.2.2.2.2 "abc" "text" (by decide) (by decide)
    (by decide) (by decide)

/-- C7: the type mapper is a total function (the embedding is a Lean
function, hence also deterministic); its result is always one of the valid
target type forms, and whenever none of the mapper's substring patterns
matches the lowercased input, the result is the generic `TEXT` fallback. -/
theorem C7_type_mapper_total :
    (∀ t, IsValidTargetType (convertDataType t)) ∧
    (∀ t, matchesKnownPattern (jsToLower t) = false →
      convertDataType t = "TEXT") := by
  constructor
  · intro t
    unfold convertDataType
    generalize jsToLower t = s
    unfold convertDataTypeAux
    refine valid_ite (Or.inl (by decide)) ?_
    refine valid_ite (Or.inl (by decide)) ?_
    refine valid_ite (Or.inl (by decide)) ?_
    refine valid_ite (Or.inl (by decide)) ?_
    refine valid_ite (Or.inl (by decide)) ?_
    refine valid_ite ?_ ?_
    · cases matchParenArg "varchar(".toList s.toList with
      | some ds => exact Or.inr (Or.inl ⟨String.mk ds, rfl⟩)
      | none => exact Or.inr (Or.inl ⟨"255", by decide⟩)
    refine valid_ite (Or.inl (by decide)) ?_
    refine valid_ite (Or.inl (by decide)) ?_
    refine valid_ite (Or.inl (by decide)) ?_
    refine valid_ite ?_ ?_
    · cases matchDecimalArgs s.toList with
      | some ds =>
        exact Or.inr (Or.inr ⟨String.mk ds.1, String.mk ds.2, rfl⟩)
      | none => exact Or.inl (by decide)
    refine valid_ite (Or.inl (by decide)) ?_
    refine valid_ite (Or.inl (by decide)) ?_
    refine valid_ite (Or.inl (by decide)) ?_
    refine valid_ite (Or.inl (by decide)) ?_
    refine valid_ite (Or.inl (by decide)) ?_
    refine valid_ite (Or.inl (by decide)) ?_
    refine valid_ite (Or.inl (by decide)) ?_
    refine valid_ite (Or.inr (Or.inl ⟨"50", by decide⟩)) ?_
    exact Or.inl (by decide)
  · intro t h
    simp only [matchesKnownPattern, Bool.or_eq_false_iff] at h
    obtain ⟨⟨⟨⟨⟨⟨⟨⟨⟨⟨⟨⟨⟨⟨⟨⟨⟨ha, hb⟩, hc⟩, hd⟩, he⟩, hf⟩, hg⟩, hh⟩, hi⟩, hj⟩,
      hk⟩, hl⟩, hm⟩, hn⟩, ho⟩, hp⟩, hq⟩, hr⟩ := h
    unfold convertDataType convertDataTypeAux
    rw [ite_cond_false _ ha, ite_cond_false _ hb, ite_cond_false _ hc,
      ite_cond_false _ hd, ite_cond_false _ he, ite_cond_false _ hf,
      ite_cond_false _ hg, ite_cond_false _ hh, ite_cond_false _ hi,
      ite_cond_false _ hj, ite_cond_false _ hk, ite_cond_false _ hl,
      ite_cond_false _ hm, ite_cond_false _ hn, ite_cond_false _ ho,
      ite_cond_false _ hp, ite_cond_false _ hq, ite_cond_false _ hr]

/-- Witness for C7: the unmapped type `"geometry"` matches no pattern and
falls back to `TEXT`. -/
theorem C7_type_mapper_total_witness :
    convertDataType "geometry" = "TEXT" :=
  C7_type_mapper_total.2 "geometry" (by decide)

/-- C8 counterexample: non-finite ETA values CAN occur.  With 1 row copied
after 10,000,000 ms the rounded throughput is 0 rows/sec, and the ETA
division `(totalRows - totalInserted) / speed` divides by zero, yielding
JavaScript `Infinity` — the guard checks `totalInserted > 0`, not the
throughput. -/
theorem C8_eta_counterexample :
    computeEta 10001 1 10000000 = EtaResult.nonFinite ∧
    computeSpeed 1 10000000 = 0 :=
  ⟨by decide, by decide⟩

/-- C8 (amended): the guard is on rows copied, not throughput: zero rows
copied yields an ETA of 0 by convention, and a non-finite ETA occurs
exactly when some rows were copied, the elapsed time is positive, and the
rounded throughput is zero (the division by zero throughput is not
guarded). -/
theorem C8_eta_amended (totalRows totalInserted elapsedMs : Nat) :
    (computeEta totalRows totalInserted elapsedMs = EtaResult.nonFinite ↔
      (0 < totalInserted ∧ elapsedMs ≠ 0 ∧
        computeSpeed totalInserted elapsedMs = 0)) ∧
    (totalInserted = 0 →
      computeEta totalRows totalInserted elapsedMs = EtaResult.finite 0) := by
  constructor
  · unfold computeEta
    split_ifs <;> simp_all
  · intro h
    simp [computeEta, h]

/-- Witness for C8 (amended): zero rows copied yields ETA 0. -/
theorem C8_eta_amended_witness :
    computeEta 500 0 12000 = EtaResult.finite 0 :=
  (C8_eta_amended 500 0 12000).2 rfl

/-- C9: `verifyData` reports a match exactly when the two counts are equal,
and every query it issues (the two COUNT queries, plus the 3-row sample on
a match) is a read — it never writes to either table and never retries or
repairs a mismatch. -/
theorem C9_verify_counts (tableName : String) (S T : Nat) :
    ((verifyData tableName S T).matched = true ↔ S = T) ∧
    (verifyData tableName S T).queries.all DBQuery.isRead = true := by
  constructor
  · simp [verifyData]
  · by_cases h : S = T <;> simp [verifyData, h, DBQuery.isRead]

end DbCopy
